import Mathlib

/-!
# Verification of the bittorrent-dht client (`src/client.js`)

A shallow embedding of the DHT client's data model and operations.
Buffers are `List Nat` (one entry per byte), addresses are `"host:port"`
strings as in the source, and side effects (UDP sends, emitted events)
are reified as explicit `Action` values returned by each operation.

External libraries used by the source (`string2compact`, `compact2string`,
`k-bucket`, `sha1`) are modelled where noted; everything else is translated
directly from `src/client.js`.
-/

namespace BitTorrentDHT

/-! ## Constants (src/client.js lines 41-58) -/

def K : Nat := 8

def MAX_CONCURRENCY : Nat := 3

def SEND_TIMEOUT : Nat := 2000

def ERROR_GENERIC : Nat := 201

def ERROR_SERVER : Nat := 202

def ERROR_PROTOCOL : Nat := 203

def ERROR_METHOD_UNKNOWN : Nat := 204

/-! ## Bytes, addresses and the compact codecs -/

/-- `new Buffer(host, 'utf8')` (src/client.js line 900): the UTF-8 bytes of a
host string.  Hosts are dotted-quad ASCII strings, so byte = code point. -/
def hostBytes (host : String) : List Nat :=
  host.data.map Char.toNat

/-- Hex digit characters, used by `idToHexString`. -/
def hexChar (n : Nat) : Char :=
  "0123456789abcdef".data.getD n '?'

/-- `idToHexString` (src/client.js lines 1020-1026): a buffer becomes its
lowercase hex string. -/
def idToHexString (id : List Nat) : String :=
  String.mk (id.flatMap fun b => [hexChar (b / 16 % 16), hexChar (b % 16)])

/-- Split a character list at every occurrence of `c` (the char-level form
of splitting an address string on `':'` or `'.'`). -/
def splitOnChar (c : Char) : List Char → List (List Char)
  | [] => [[]]
  | x :: xs =>
      let r := splitOnChar c xs
      if x = c then [] :: r
      else
        match r with
        | [] => [[x]]
        | y :: ys => (x :: y) :: ys

/-- Decimal digits to a number, as `Number(str)` on a digit string. -/
def charsToNat (l : List Char) : Nat :=
  l.foldl (fun acc c => acc * 10 + (c.toNat - 48)) 0

/-- Modelled from the `string2compact` npm dependency (not under src/):
`"a.b.c.d:p"` becomes the 6 bytes `[a, b, c, d, p / 256, p % 256]`. -/
def string2compact (addr : String) : List Nat :=
  match splitOnChar ':' addr.data with
  | [ip, port] =>
      let p := charsToNat port
      (splitOnChar '.' ip).map charsToNat ++ [p / 256, p % 256]
  | _ => []

/-- Modelled from the `compact2string` npm dependency (not under src/): a
6-byte buffer becomes `"a.b.c.d:p"`; any other length throws (the 18-byte
IPv6 case cannot arise here because callers pass at most 6 bytes). -/
def compact2string (b : List Nat) : Except String String :=
  if b.length = 6 then
    .ok (toString (b.getD 0 0) ++ "." ++ toString (b.getD 1 0) ++ "." ++
         toString (b.getD 2 0) ++ "." ++ toString (b.getD 3 0) ++ ":" ++
         toString (b.getD 4 0 * 256 + b.getD 5 0))
  else
    .error "Invalid Compact IP/PORT. It should contain 6 bytes."

/-- A routing-table contact: `{ id: Buffer, addr: string }`. -/
structure Contact where
  id : List Nat
  addr : String
deriving Repr, DecidableEq

/-- `parseNodeInfo` (src/client.js lines 957-970): walk the buffer in 26-byte
steps, pushing `{id: slice(i, i+20), addr: compact2string(slice(i+20, i+26))}`.
The loop body sits in a `try` block whose `catch` only logs, and `contacts`
is declared outside it, so a throw from `compact2string` (slice shorter than
6 bytes, i.e. a trailing partial record) stops the loop and the contacts
accumulated so far are returned. -/
def parseNodeInfoGo (fuel : Nat) (b : List Nat) : List Contact :=
  match fuel with
  | 0 => []
  | fuel + 1 =>
      if b.isEmpty then []
      else
        match compact2string ((b.drop 20).take 6) with
        | .error _ => []
        | .ok addr => ⟨b.take 20, addr⟩ :: parseNodeInfoGo fuel (b.drop 26)

/-- Entry point: the loop runs at most `b.length` iterations, so that much
fuel makes `parseNodeInfoGo` compute exactly the JS loop. -/
def parseNodeInfo (b : List Nat) : List Contact :=
  parseNodeInfoGo b.length b

/-! ## Token authority (src/client.js lines 897-938)

`sha1` comes from the external Rusha library; it is passed in as an abstract
hash function `List Nat → List Nat`. -/

/-- The two token secrets: `secrets[0]` is current, `secrets[1]` previous. -/
structure Secrets where
  s0 : List Nat
  s1 : List Nat
deriving Repr, DecidableEq

/-- `_generateToken` (src/client.js lines 897-901):
`sha1(Buffer.concat([new Buffer(host, 'utf8'), secret]))`. -/
def generateToken (sha1 : List Nat → List Nat) (host : String) (secret : List Nat) :
    List Nat :=
  sha1 (hostBytes host ++ secret)

/-- `_isValidToken` (src/client.js lines 910-915): the token matches the hash
under the current secret or under the previous one. -/
def isValidToken (sha1 : List Nat → List Nat) (token : List Nat) (host : String)
    (sec : Secrets) : Bool :=
  token == generateToken sha1 host sec.s0 || token == generateToken sha1 host sec.s1

/-- `_rotateSecrets` (src/client.js lines 936-937, the already-initialized
case): `secrets[1] = secrets[0]; secrets[0] = createSecret()`. -/
def rotateSecrets (sec : Secrets) (fresh : List Nat) : Secrets :=
  ⟨fresh, sec.s0⟩

/-! ## Wire messages and reified effects -/

/-- Outgoing wire messages built by the handlers. -/
inductive Msg where
  /-- `{t, y:'r', r:{id}}` — the bare acknowledgement response. -/
  | response (t : List Nat) (id : List Nat)
  /-- `{t, y:'e', e:[code, message]}` — an error reply. -/
  | error (t : List Nat) (code : Nat) (msg : String)
deriving Repr, DecidableEq

/-- Observable effects of an operation: UDP sends and emitted events. -/
inductive Action where
  | send (host : String) (port : Nat) (m : Msg)
  | warning
  | nodeEvent (addr : String) (id : List Nat)
  | peerEvent (addr : String) (infoHash : String)
  | socketBind (port : Nat)
  | queryTo (addr : String)
  | syntheticComplete
deriving Repr, DecidableEq

/-- `_send` (src/client.js lines 519-529): the datagram goes out only when
`port > 0 && port < 65535`; otherwise it is silently dropped.  `none` models
a JS `undefined` port (comparisons with `undefined` are false, so: drop). -/
def sendTo (host : String) (port : Option Nat) (m : Msg) : List Action :=
  match port with
  | none => []
  | some p => if 0 < p ∧ p < 65535 then [.send host p m] else []

/-- `_sendError` (src/client.js lines 819-836), for a buffer transaction id
(always echoed, since a JS Buffer is truthy). -/
def sendError (host : String) (port : Nat) (t : List Nat) (code : Nat)
    (msg : String) : List Action :=
  sendTo host (some port) (.error t code msg)

/-! ## Node state and the public operations -/

/-- The mutable fields of a `DHT` object that the claims touch.  `nodes` and
`peers` are `Option` because `destroy` sets them to `null`
(src/client.js lines 211-213); the peer store maps hex info-hash strings to
lists of 6-byte compact peer buffers. -/
structure State where
  closed : Bool
  listening : Bool
  port : Option Nat
  nodeId : List Nat
  nodes : Option (List Contact)
  peers : Option (List (String × List (List Nat)))
  secrets : Secrets
deriving Repr, DecidableEq

/-- Modelled from the spec: `k-bucket`'s `add` (external dependency) inserts
or refreshes a contact, moving a reinserted NodeID to the most-recent end. -/
def kbucketAdd (t : List Contact) (c : Contact) : List Contact :=
  t.filter (fun x => x.id != c.id) ++ [c]

/-- Modelled from the spec: `k-bucket`'s `get` returns the exact contact or
nothing. -/
def kbucketGet (t : List Contact) (id : List Nat) : Option Contact :=
  t.find? (fun x => x.id == id)

/-- Modelled from the spec: `k-bucket`'s `remove` removes the contact if
present. -/
def kbucketRemove (t : List Contact) (id : List Nat) : List Contact :=
  t.filter (fun x => x.id != id)

/-- Set-or-insert on the association-list peer store. -/
def assocSet (m : List (String × List (List Nat))) (k : String)
    (v : List (List Nat)) : List (String × List (List Nat)) :=
  if m.any (fun kv => kv.1 == k) then
    m.map (fun kv => if kv.1 == k then (k, v) else kv)
  else
    m ++ [(k, v)]

/-- `destroy` (src/client.js lines 202-224): clears the listening flag, sets
`_closed`, nulls the port and the large structures. -/
def destroy (s : State) : State :=
  { s with closed := true, listening := false, port := none,
           nodes := none, peers := none }

/-- `addNode` (src/client.js lines 231-241).  There is no `_closed` guard:
after `destroy`, `self.nodes` is `null` and `self.nodes.add` throws a
`TypeError`, modelled as `.error`. -/
def addNode (s : State) (addr : String) (nodeId : List Nat) :
    Except String (State × List Action) :=
  match s.nodes with
  | none => .error "TypeError: Cannot read properties of null (reading add)"
  | some t =>
      .ok ({ s with nodes := some (kbucketAdd t ⟨nodeId, addr⟩) },
           [.nodeEvent addr nodeId])

/-- `removeNode` (src/client.js lines 247-253): `get` then `remove` when the
contact exists.  No `_closed` guard, so a destroyed node throws. -/
def removeNode (s : State) (nodeId : List Nat) :
    Except String (State × List Action) :=
  match s.nodes with
  | none => .error "TypeError: Cannot read properties of null (reading get)"
  | some t =>
      match kbucketGet t nodeId with
      | none => .ok (s, [])
      | some _ => .ok ({ s with nodes := some (kbucketRemove t nodeId) }, [])

/-- `addPeer` (src/client.js lines 260-281): dedup by byte equality of the
6-byte compact form, then push; emits a `peer` event.  No `_closed` guard,
so a destroyed node throws on `self.peers[infoHash]`. -/
def addPeer (s : State) (addr : String) (infoHash : List Nat) :
    Except String (State × List Action) :=
  let ih := idToHexString infoHash
  match s.peers with
  | none => .error "TypeError: Cannot read properties of null"
  | some peerMap =>
      let peers := (peerMap.lookup ih).getD []
      let compactPeerInfo := string2compact addr
      let peers' := if peers.any (fun p => p == compactPeerInfo) then peers
                    else peers ++ [compactPeerInfo]
      .ok ({ s with peers := some (assocSet peerMap ih peers') },
           [.peerEvent addr ih])

/-- `removePeer` (src/client.js lines 288-304).  When a matching entry is
found the callback runs `peers.splice(removeIndex, 1)` — but `removeIndex`
is never defined, so JS throws `ReferenceError` out of `removePeer`
(there is no try/catch), modelled as `.error`.  With no matching entry the
scan completes and nothing happens.  After `destroy`, `self.peers` is `null`
and the indexing throws a `TypeError`. -/
def removePeer (s : State) (infoHash : List Nat) (addr : String) :
    Except String State :=
  let ih := idToHexString infoHash
  match s.peers with
  | none => .error "TypeError: Cannot read properties of null"
  | some peerMap =>
      match peerMap.lookup ih with
      | none => .ok s
      | some peers =>
          if peers.any (fun p => p == string2compact addr) then
            .error "ReferenceError: removeIndex is not defined"
          else
            .ok s

/-- The synchronous surface of `lookup` (src/client.js lines 357-422): the
`_closed` guard returns immediately; otherwise the lookup is kicked off by
probing each explicitly passed address, or by the synthetic completed event
(`pending += 1; onResponse()`) when none are given.  The iterative engine
itself (`onResponse`'s candidate loop) is modelled separately by
`issueProbes`. -/
def lookup (s : State) (_id : List Nat) (addrs : Option (List String)) :
    State × List Action :=
  if s.closed then (s, [])
  else
    match addrs with
    | some as => (s, as.map Action.queryTo)
    | none => (s, [.syntheticComplete])

/-- `listen` (src/client.js lines 161-186): returns immediately when closed
or already listening; otherwise records the port and binds the socket. -/
def listen (s : State) (port : Nat) : State × List Action :=
  if s.closed || s.listening then (s, [])
  else ({ s with port := some port }, [.socketBind port])

/-! ## The announce_peer handler (src/client.js lines 775-809) -/

/-- The `a` dictionary of an `announce_peer` query; `none` models an absent
key (JS `undefined`). -/
structure AnnounceArgs where
  info_hash : Option (List Nat)
  token : Option (List Nat)
  port : Option Nat
  implied_port : Option Nat
deriving Repr, DecidableEq

/-- `_onAnnouncePeer` (src/client.js lines 775-809), for a query arriving
from `(host, port)` with transaction id `t`.

* `idToHexString(message.a && message.a.info_hash)` is falsy (missing key or
  empty buffer) → error 203.
* bad or missing token → error 203.
* Then `var port = message.a.implied_port !== 0 ? port : message.a.port`:
  the JS check is literally `!== 0`, so an *absent* `implied_port`
  (`undefined !== 0`) also selects the UDP source port.  The rebound `port`
  is then used as the destination of the `{r:{id}}` acknowledgement.
  Nothing is ever inserted into the peer store — the only trace of that
  intent is a commented-out `emit` on line 798. -/
def onAnnouncePeer (sha1 : List Nat → List Nat) (s : State) (host : String)
    (port : Nat) (t : List Nat) (a : AnnounceArgs) : State × List Action :=
  let infoHash := match a.info_hash with
    | none => ""
    | some ih => idToHexString ih
  if infoHash = "" then
    (s, sendError host port t ERROR_PROTOCOL
          "`announce_peer` missing required `a.info_hash` field")
  else
    let tokenOk := match a.token with
      | none => false
      | some tok => isValidToken sha1 tok host s.secrets
    if !tokenOk then
      (s, sendError host port t ERROR_PROTOCOL
            "cannot `announce_peer` with bad token")
    else
      let destPort : Option Nat :=
        if a.implied_port != some 0 then some port else a.port
      (s, sendTo host destPort (.response t s.nodeId))

/-! ## Response/error dispatch (src/client.js lines 482-510) -/

/-- `message.t.readUInt16BE(0)` for a (well-formed, two-byte) transaction id
buffer. -/
def readUInt16BE (b : List Nat) : Nat :=
  b.getD 0 0 * 256 + b.getD 1 0

/-- `_onResponseOrError` (src/client.js lines 482-510).  `transactions` maps
`"host:port"` and a numeric transaction id to `some ()` when a pending
transaction with its callback is registered (`null` slots and missing
entries are both `none`).  `type` is `"r"` or `"e"` (dispatched by `_onData`).
A matched message resolves the pending callback (no wire action here);
unmatched errors only emit a `warning`; unmatched responses are answered
with a generic error 201 `"unexpected message"`. -/
def onResponseOrError (transactions : String → Nat → Option Unit)
    (host : String) (port : Nat) (type : String) (t : List Nat) : List Action :=
  let addr := host ++ ":" ++ toString port
  let transactionId := readUInt16BE t
  match transactions addr transactionId with
  | some _ => []
  | none =>
      if type = "e" then [.warning]
      else sendError host port t ERROR_GENERIC "unexpected message"

/-! ## The transaction slot life cycle (src/client.js lines 859-887)

`_getTransactionId` wraps the caller's callback in `once(fn)`, arms a
2-second timer, and stores `{cb, timeout}` in `reqs[transactionId]`.
`onTimeout` nulls the slot and calls `fn`; `onResponse` (reached through
`_onResponseOrError` only while the slot is non-null) clears the timer,
nulls the slot and calls `fn`. -/

/-- One pending transaction slot: whether `reqs[tid]` is non-null, whether
the timer is still armed, the `once` latch, and how many times the
caller's resolver has actually run. -/
structure TxState where
  slotActive : Bool
  timerArmed : Bool
  fnCalled : Bool
  calls : Nat
deriving Repr, DecidableEq

/-- Completion events that can reach one transaction slot: the 2-second
timer firing, or an inbound response/error matching `(endpoint, tid)`. -/
inductive TxEvent where
  | timeout
  | response
deriving Repr, DecidableEq

/-- `once(fn)`: run the resolver only if it has not run before. -/
def callOnce (st : TxState) : TxState :=
  if st.fnCalled then st
  else { st with fnCalled := true, calls := st.calls + 1 }

/-- One completion event.  The timer can fire only while armed (`setTimeout`
fires at most once and `clearTimeout` disarms it); `onTimeout` nulls the slot
and invokes the wrapped resolver.  A response reaches `transaction.cb` only
while the slot is non-null (`_onResponseOrError` line 495); `onResponse`
clears the timer, nulls the slot and invokes the wrapped resolver. -/
def txStep (st : TxState) : TxEvent → TxState
  | .timeout =>
      if st.timerArmed then
        callOnce { st with slotActive := false, timerArmed := false }
      else st
  | .response =>
      if st.slotActive then
        callOnce { st with slotActive := false, timerArmed := false }
      else st

/-- Process a sequence of completion events. -/
def txRun (st : TxState) (evs : List TxEvent) : TxState :=
  evs.foldl txStep st

/-- A freshly registered transaction: slot stored, timer armed, resolver not
yet called. -/
def txInit : TxState :=
  ⟨true, true, false, 0⟩

/-! ## The iterative lookup engine (src/client.js lines 386-410) -/

/-- The `while` loop of `onResponse` (src/client.js lines 399-403):
`while (pending < MAX_CONCURRENCY && candidates.length) {
   var addr = candidates.pop().addr; query(addr) }`.
`candidates.pop()` removes the *last* element of the array, and `query`
increments `pending` and sends a probe.  Returns the probe targets in issue
order together with the final `pending` count. -/
def issueProbesGo (fuel : Nat) (pending : Nat) (candidates : List Contact) :
    List String × Nat :=
  match fuel with
  | 0 => ([], pending)
  | fuel + 1 =>
      if pending < MAX_CONCURRENCY then
        match candidates.getLast? with
        | some c =>
            let r := issueProbesGo fuel (pending + 1) candidates.dropLast
            (c.addr :: r.1, r.2)
        | none => ([], pending)
      else ([], pending)

/-- Entry point: each iteration pops one candidate, so `candidates.length`
fuel makes `issueProbesGo` compute exactly the JS `while` loop. -/
def issueProbes (pending : Nat) (candidates : List Contact) :
    List String × Nat :=
  issueProbesGo candidates.length pending candidates

/-- `onResponse` inside `lookup` (src/client.js lines 386-410): decrement
`pending`, filter the K closest routing-table contacts (given here in the
ascending-distance order `closest` returns) against `queried`, then run the
probe loop. -/
def lookupOnResponse (closestK : List Contact) (queried : String → Bool)
    (pending : Nat) : List String × Nat :=
  let pending' := pending - 1
  let candidates := closestK.filter (fun c => !(queried c.addr))
  issueProbes pending' candidates

/-! ## Concrete model instances used by witnesses and counterexamples -/

/-- Concrete stand-in for the abstract SHA-1: the identity on byte lists
(injective, which is the idealized property the token scheme relies on). -/
def modelHash : List Nat → List Nat := fun l => l

/-- A concrete 20-byte info-hash. -/
def ihash20 : List Nat := List.replicate 20 5

/-- A live node: not closed, empty routing table and peer store, secrets
`[7]` (current) and `[8]` (previous). -/
def initState : State :=
  { closed := false, listening := false, port := none, nodeId := [0, 1],
    nodes := some [], peers := some [], secrets := ⟨[7], [8]⟩ }

/-- A node whose peer store holds `1.2.3.4:6881` under `ihash20`. -/
def c4State : State :=
  { initState with
    peers := some [(idToHexString ihash20, [string2compact "1.2.3.4:6881"])] }

end BitTorrentDHT

namespace BitTorrentDHT

/-! # Theorems for the claims -/

/-- C1: the claim says a validated `announce_peer` inserts the advertised
peer endpoint into the peer store and replies `{r:{id}}`.  The code replies
but never touches the peer store: at the spec's own scenario (valid token,
`implied_port = 1`, source `9.9.9.9:54321`), the handler returns the state
completely unchanged — in particular the peer store is still empty — while
sending the acknowledgement.  The code contradicts the evident intent
(it computes the advertised endpoint's effective port and has the insertion
path only as a commented-out line), so this is a bug in the code. -/
theorem announce_valid_no_peer_store_insert :
    onAnnouncePeer modelHash initState "9.9.9.9" 54321 [0, 1]
        ⟨some ihash20, some (generateToken modelHash "9.9.9.9" [7]), some 6881, some 1⟩
      = (initState, [.send "9.9.9.9" 54321 (.response [0, 1] [0, 1])]) ∧
    initState.peers = some [] := ⟨rfl, rfl⟩

/-- C3 counterexample: the claim says that when `a.implied_port` is absent
the effective port is `a.port`.  With `a.port = 6881`, `implied_port`
absent, and UDP source port `9999`, the handler acknowledges to port `9999`
(the source port): `implied_port !== 0` is true for an absent field. -/
theorem announce_effective_port_counterexample :
    onAnnouncePeer modelHash initState "9.9.9.9" 9999 [0, 1]
        ⟨some ihash20, some (generateToken modelHash "9.9.9.9" [7]), some 6881, none⟩
      = (initState, [.send "9.9.9.9" 9999 (.response [0, 1] [0, 1])]) ∧
    (9999 : Nat) ≠ 6881 :=
  ⟨rfl, by decide⟩

/-- C3 as amended: for every `announce_peer` query that passes validation,
the effective port (the destination of the acknowledgement) equals `a.port`
exactly when `a.implied_port` is present and equal to 0, and equals the UDP
source port in every other case — including when `a.implied_port` is
absent. -/
theorem announce_effective_port_rule (sha1 : List Nat → List Nat) (s : State)
    (host : String) (srcPort : Nat) (t ih tok : List Nat) (ap ip : Option Nat)
    (hih : ¬ idToHexString ih = "")
    (htok : isValidToken sha1 tok host s.secrets = true) :
    onAnnouncePeer sha1 s host srcPort t ⟨some ih, some tok, ap, ip⟩
      = (s, sendTo host (if ip = some 0 then ap else some srcPort)
              (.response t s.nodeId)) := by
  by_cases hip : ip = some 0 <;>
    simp [onAnnouncePeer, hih, htok, hip]

/-- C3 witness: the amended rule evaluated at a concrete validated query
with `implied_port = 1`. -/
theorem announce_effective_port_rule_witness :
    (¬ idToHexString ihash20 = "") ∧
    (isValidToken modelHash (generateToken modelHash "9.9.9.9" [7]) "9.9.9.9"
        (⟨[7], [8]⟩ : Secrets) = true) ∧
    onAnnouncePeer modelHash initState "9.9.9.9" 54321 [0, 1]
        ⟨some ihash20, some (generateToken modelHash "9.9.9.9" [7]), some 6881, some 1⟩
      = (initState,
         sendTo "9.9.9.9" (if (some 1 : Option Nat) = some 0 then some 6881 else some 54321)
           (.response [0, 1] initState.nodeId)) :=
  ⟨by decide, rfl,
   announce_effective_port_rule modelHash initState "9.9.9.9" 54321 [0, 1] ihash20
     (generateToken modelHash "9.9.9.9" [7]) (some 6881) (some 1) (by decide) rfl⟩

/-- C4: the claim states the intended behavior of `removePeer` (remove the
matching entry, no error); the source instead splices with the undefined
variable `removeIndex`, so reaching a matching entry throws a
`ReferenceError`.  Evaluated at a store holding `1.2.3.4:6881` under the
info-hash: the call errors instead of removing. -/
theorem removePeer_matching_entry_raises :
    removePeer c4State ihash20 "1.2.3.4:6881"
      = .error "ReferenceError: removeIndex is not defined" := rfl

/-- C8 counterexample: the claim says every public operation is a no-op
after `destroy()`, leaving state unchanged and raising no error; but
`addNode` on a destroyed node dereferences the nulled routing table and
throws a `TypeError`. -/
theorem destroyed_addNode_counterexample :
    addNode (destroy initState) "1.2.3.4:80" [9]
      = .error "TypeError: Cannot read properties of null (reading add)" := rfl

/-- C8 as amended: after `destroy()`, `lookup` and `listen` are no-ops
(they check `_closed`), while `addNode`, `removeNode`, `addPeer` and
`removePeer` each raise an error (a `TypeError` from the nulled `nodes` /
`peers` structures) rather than being no-ops. -/
theorem destroyed_ops_behavior (s : State) (addr : String)
    (nid ihb idb : List Nat) (as : Option (List String)) (p : Nat) :
    lookup (destroy s) idb as = (destroy s, []) ∧
    listen (destroy s) p = (destroy s, []) ∧
    (∃ e, addNode (destroy s) addr nid = .error e) ∧
    (∃ e, removeNode (destroy s) nid = .error e) ∧
    (∃ e, addPeer (destroy s) addr ihb = .error e) ∧
    (∃ e, removePeer (destroy s) ihb addr = .error e) :=
  ⟨rfl, rfl, ⟨_, rfl⟩, ⟨_, rfl⟩, ⟨_, rfl⟩, ⟨_, rfl⟩⟩

/-- C2: a token issued for an IP verifies immediately; it still verifies
after exactly one secret rotation (the issuing secret is then the previous
one); after two rotations it no longer verifies.  The last part relies on
the idealized-hash assumptions: the hash is injective and the two freshly
drawn secrets differ from the secret the token was issued under. -/
theorem token_lifecycle (sha1 : List Nat → List Nat)
    (hinj : Function.Injective sha1) (host : String) (sec : Secrets)
    (f1 f2 : List Nat) (h1 : f1 ≠ sec.s0) (h2 : f2 ≠ sec.s0) :
    isValidToken sha1 (generateToken sha1 host sec.s0) host sec = true ∧
    isValidToken sha1 (generateToken sha1 host sec.s0) host
      (rotateSecrets sec f1) = true ∧
    isValidToken sha1 (generateToken sha1 host sec.s0) host
      (rotateSecrets (rotateSecrets sec f1) f2) = false := by
  refine ⟨by simp [isValidToken], by simp [isValidToken, rotateSecrets], ?_⟩
  simp only [isValidToken, rotateSecrets, generateToken,
    Bool.or_eq_false_iff, beq_eq_false_iff_ne, ne_eq]
  constructor
  · intro h
    exact h2 (List.append_cancel_left (hinj h)).symm
  · intro h
    exact h1 (List.append_cancel_left (hinj h)).symm

/-- C2 witness: the life cycle evaluated with the identity as the model
hash, host `"a"`, secrets `[0]`/`[1]` and fresh secrets `[2]`, `[3]`. -/
theorem token_lifecycle_witness :
    (([2] : List Nat) ≠ [0]) ∧ (([3] : List Nat) ≠ [0]) ∧
    (isValidToken modelHash (generateToken modelHash "a" [0]) "a"
        (⟨[0], [1]⟩ : Secrets) = true ∧
     isValidToken modelHash (generateToken modelHash "a" [0]) "a"
        (rotateSecrets ⟨[0], [1]⟩ [2]) = true ∧
     isValidToken modelHash (generateToken modelHash "a" [0]) "a"
        (rotateSecrets (rotateSecrets ⟨[0], [1]⟩ [2]) [3]) = false) :=
  ⟨by decide, by decide,
   token_lifecycle modelHash (fun _ _ h => h) "a" ⟨[0], [1]⟩ [2] [3]
     (by decide) (by decide)⟩

/-- C6: an inbound `y="r"` message whose `(source endpoint, transaction id)`
pair matches no pending transaction is answered with a generic error 201
`"unexpected message"`; an unmatched `y="e"` message only emits a warning
event and sends nothing. -/
theorem unmatched_response_error_policy
    (transactions : String → Nat → Option Unit) (host : String) (port : Nat)
    (t : List Nat)
    (hun : transactions (host ++ ":" ++ toString port) (readUInt16BE t) = none)
    (hport : 0 < port ∧ port < 65535) :
    onResponseOrError transactions host port "r" t
      = [.send host port (.error t ERROR_GENERIC "unexpected message")] ∧
    onResponseOrError transactions host port "e" t = [.warning] := by
  refine ⟨?_, ?_⟩ <;>
    simp [onResponseOrError, hun, sendError, sendTo, hport.1, hport.2]

/-- C6 witness: the policy evaluated with an empty transaction registry and
a response from `1.2.3.4:6881` with transaction id 1. -/
theorem unmatched_response_error_policy_witness :
    ((fun _ _ => none : String → Nat → Option Unit)
        ("1.2.3.4" ++ ":" ++ toString 6881) (readUInt16BE [0, 1]) = none) ∧
    (0 < 6881 ∧ 6881 < 65535) ∧
    (onResponseOrError (fun _ _ => none) "1.2.3.4" 6881 "r" [0, 1]
       = [.send "1.2.3.4" 6881 (.error [0, 1] ERROR_GENERIC "unexpected message")] ∧
     onResponseOrError (fun _ _ => none) "1.2.3.4" 6881 "e" [0, 1] = [.warning]) :=
  ⟨rfl, by decide,
   unmatched_response_error_policy (fun _ _ => none) "1.2.3.4" 6881 [0, 1]
     rfl (by decide)⟩

/-- The invariant that makes at-most-once resolution go through: the
resolver has run at most once, and not at all while the `once` latch is
still clear. -/
def txInv (st : TxState) : Prop :=
  st.calls ≤ if st.fnCalled then 1 else 0

theorem callOnce_inv (st : TxState) (h : txInv st) : txInv (callOnce st) := by
  unfold txInv at h ⊢
  unfold callOnce
  by_cases hfn : st.fnCalled
  · simpa [hfn] using h
  · simp [hfn] at h
    simp [hfn, h]

theorem txStep_inv (st : TxState) (ev : TxEvent) (h : txInv st) :
    txInv (txStep st ev) := by
  cases ev <;> unfold txStep <;> dsimp only <;> split
  · exact callOnce_inv _ h
  · exact h
  · exact callOnce_inv _ h
  · exact h

theorem txRun_inv (evs : List TxEvent) :
    ∀ st : TxState, txInv st → txInv (txRun st evs) := by
  induction evs with
  | nil => intro st h; exact h
  | cons ev evs ih => intro st h; exact ih _ (txStep_inv st ev h)

/-- C7: across any sequence of completion events (timer firings and
matching responses, in any order and multiplicity) hitting one registered
transaction, the caller's resolver runs at most once: `_onResponseOrError`
only resolves while the slot is non-null, both completion paths null the
slot, and the resolver is wrapped in `once`. -/
theorem resolver_at_most_once (evs : List TxEvent) :
    (txRun txInit evs).calls ≤ 1 := by
  have h := txRun_inv evs txInit (by simp [txInv, txInit])
  unfold txInv at h
  exact le_trans h (by split <;> norm_num)

theorem parseNodeInfoGo_length (fuel : Nat) :
    ∀ b : List Nat, b.length ≤ fuel →
      (parseNodeInfoGo fuel b).length = b.length / 26 := by
  induction fuel with
  | zero =>
      intro b hb
      have hb0 : b.length = 0 := Nat.le_zero.mp hb
      simp [parseNodeInfoGo, hb0]
  | succ fuel ih =>
      intro b hb
      by_cases hempty : b.isEmpty
      · have hb0 : b.length = 0 := by
          simpa [List.isEmpty_iff, List.length_eq_zero] using hempty
        simp [parseNodeInfoGo, hempty, hb0]
      · have hpos : 0 < b.length := by
          cases b with
          | nil => simp at hempty
          | cons x xs => simp
        by_cases h26 : b.length < 26
        · have hcond : ¬ 6 ≤ b.length - 20 := by omega
          have hcond' : ¬ ((b.drop 20).take 6).length = 6 := by
            simp only [List.length_take, List.length_drop]
            omega
          simp [parseNodeInfoGo, hempty, compact2string, hcond, hcond']
          all_goals omega
        · have hcond : 6 ≤ b.length - 20 := by omega
          have hcond' : ((b.drop 20).take 6).length = 6 := by
            simp only [List.length_take, List.length_drop]
            omega
          have hrec : (b.drop 26).length ≤ fuel := by
            simp only [List.length_drop]
            omega
          simp [parseNodeInfoGo, hempty, compact2string, hcond, hcond',
            ih _ hrec]
          all_goals omega

/-- C9 counterexample: the claim says a compact node field whose length is
not a multiple of 26 yields no contacts at all.  On a 27-byte field (one
complete record plus one trailing byte) the parse returns the complete
leading record: the `catch` only stops the loop, and the contacts pushed
before the throw are returned. -/
theorem parseNodeInfo_partial_field_counterexample :
    parseNodeInfo (List.replicate 20 0 ++ [1, 2, 3, 4, 26, 225] ++ [9])
      = [⟨List.replicate 20 0, "1.2.3.4:6881"⟩] ∧
    parseNodeInfo (List.replicate 20 0 ++ [1, 2, 3, 4, 26, 225] ++ [9]) ≠ [] :=
  ⟨rfl, by decide⟩

/-- C9 as amended: parsing a compact node info field yields exactly the
complete leading 26-byte records (⌊length / 26⌋ of them); only the trailing
partial record is discarded, not the whole field. -/
theorem parseNodeInfo_keeps_complete_records (b : List Nat) :
    (parseNodeInfo b).length = b.length / 26 :=
  parseNodeInfoGo_length b.length b le_rfl

theorem issueProbesGo_spec (fuel : Nat) :
    ∀ (candidates : List Contact) (pending : Nat), candidates.length ≤ fuel →
      issueProbesGo fuel pending candidates
        = ((candidates.reverse.map Contact.addr).take (MAX_CONCURRENCY - pending),
           pending + min (MAX_CONCURRENCY - pending) candidates.length) := by
  induction fuel with
  | zero =>
      intro cands p hc
      have h0 : cands = [] := List.length_eq_zero.mp (Nat.le_zero.mp hc)
      subst h0
      simp [issueProbesGo]
  | succ fuel ih =>
      intro cands p hc
      rcases List.eq_nil_or_concat cands with rfl | ⟨l, a, rfl⟩
      · by_cases hp : p < MAX_CONCURRENCY <;> simp [issueProbesGo, hp]
      · simp only [List.concat_eq_append] at hc ⊢
        by_cases hp : p < MAX_CONCURRENCY
        · have hl : l.length ≤ fuel := by
            simp only [List.length_append, List.length_cons, List.length_nil] at hc
            omega
          simp only [issueProbesGo, hp, if_true, List.getLast?_concat,
            List.dropLast_concat]
          rw [ih l (p + 1) hl]
          obtain ⟨k, hk⟩ : ∃ k, MAX_CONCURRENCY - p = k + 1 :=
            ⟨MAX_CONCURRENCY - p - 1, by simp only [MAX_CONCURRENCY] at hp ⊢; omega⟩
          have hk' : MAX_CONCURRENCY - (p + 1) = k := by
            simp only [MAX_CONCURRENCY] at hk ⊢; omega
          simp only [List.reverse_append, List.reverse_cons, List.reverse_nil,
            List.nil_append, List.cons_append, List.map_cons, hk, hk',
            List.take_succ_cons, List.length_append, List.length_cons,
            List.length_nil, Prod.mk.injEq]
          refine ⟨trivial, ?_⟩
          simp only [MAX_CONCURRENCY] at hk ⊢
          omega
        · have h0 : MAX_CONCURRENCY - p = 0 := by
            simp only [MAX_CONCURRENCY] at hp ⊢; omega
          simp [issueProbesGo, hp, h0]

/-- C5 counterexample: the claim says probes are issued closest-first
(ascending XOR distance).  With two unqueried candidates `1.1.1.1:1` and
`2.2.2.2:2`, listed in the ascending-distance order `closest` returns, a
probe completion with one probe still pending issues both — but the code
pops candidates off the end of the array, so the first probe goes to the
farthest candidate, not the closest. -/
theorem lookup_probe_order_counterexample :
    (lookupOnResponse [⟨[1], "1.1.1.1:1"⟩, ⟨[2], "2.2.2.2:2"⟩]
        (fun _ => false) 1).1 = ["2.2.2.2:2", "1.1.1.1:1"] ∧
    (lookupOnResponse [⟨[1], "1.1.1.1:1"⟩, ⟨[2], "2.2.2.2:2"⟩]
        (fun _ => false) 1).1 ≠ ["1.1.1.1:1", "2.2.2.2:2"] :=
  ⟨rfl, by decide⟩

/-- C5 as amended: on each completed probe, `pending` is decremented and new
probes are issued to the not-yet-queried candidates in *farthest-first*
order (descending XOR distance: the reverse of the ascending order `closest`
returns) until `pending` reaches the concurrency cap of 3 or the candidates
are exhausted. -/
theorem lookup_probe_order_farthest_first (closestK : List Contact)
    (queried : String → Bool) (pending : Nat) :
    lookupOnResponse closestK queried pending
      = (((closestK.filter (fun c => !(queried c.addr))).reverse.map
            Contact.addr).take (MAX_CONCURRENCY - (pending - 1)),
         (pending - 1) + min (MAX_CONCURRENCY - (pending - 1))
           (closestK.filter (fun c => !(queried c.addr))).length) :=
  issueProbesGo_spec _ _ _ le_rfl

/-- C10: when a validated `announce_peer` carries `implied_port = 0`, the
`{r:{id}}` acknowledgement is sent to `a.port`, not to the UDP source port:
the source rebinds its `port` variable to the effective port and then uses
it as the destination of `_send`. -/
theorem announce_ack_sent_to_announced_port (sha1 : List Nat → List Nat)
    (s : State) (host : String) (srcPort p : Nat) (t ih tok : List Nat)
    (hih : ¬ idToHexString ih = "")
    (htok : isValidToken sha1 tok host s.secrets = true)
    (hp : 0 < p ∧ p < 65535) :
    onAnnouncePeer sha1 s host srcPort t ⟨some ih, some tok, some p, some 0⟩
      = (s, [.send host p (.response t s.nodeId)]) := by
  simp [onAnnouncePeer, hih, htok, sendTo, hp.1, hp.2]

/-- C10 witness: the acknowledgement of a validated announce from
`9.9.9.9:54321` with `implied_port = 0` and `port = 6881` goes to 6881. -/
theorem announce_ack_sent_to_announced_port_witness :
    (¬ idToHexString ihash20 = "") ∧
    (isValidToken modelHash (generateToken modelHash "9.9.9.9" [7]) "9.9.9.9"
        (⟨[7], [8]⟩ : Secrets) = true) ∧
    (0 < 6881 ∧ 6881 < 65535) ∧
    onAnnouncePeer modelHash initState "9.9.9.9" 54321 [0, 1]
        ⟨some ihash20, some (generateToken modelHash "9.9.9.9" [7]), some 6881, some 0⟩
      = (initState, [.send "9.9.9.9" 6881 (.response [0, 1] initState.nodeId)]) :=
  ⟨by decide, rfl, by decide,
   announce_ack_sent_to_announced_port modelHash initState "9.9.9.9" 54321 6881 [0, 1]
     ihash20 (generateToken modelHash "9.9.9.9" [7]) (by decide) rfl (by decide)⟩

end BitTorrentDHT
